import Mathlib

/-!
Verification development for the reward-issuance engine of
`src/functions/shared-data/index.ts` (the server-side handler that grants
BIX credits for tasks, quizzes, daily check-ins, games, referral chains and
redeemable codes).

Shallow embedding conventions:
- Timestamps are natural numbers of milliseconds; calendar days are
  `t / 86400000` (the source compares UTC ISO date strings, which agrees
  with day-number comparison).
- JavaScript `Math.round` on the dyadic/decimal rationals produced by the
  engine (x * 0.5, x * 0.1, the fraud multipliers 1, 0.75, 0.5, 0.375,
  0.25, 0.1875, 0.125, 0.1) is modelled as `jsRound q = ⌊q + 1/2⌋`
  (round half toward plus infinity), which is its exact behaviour there.
- Database reads are infallible (the state is the database); the only
  writes whose errors the source checks and turns into a thrown exception
  are the first three writes of `redeemTaskCode`, modelled by the
  `WriteFails` flags.
- SQL `update ... eq(key)` is modelled as replacing every row matching the
  key with the row computed from the values read earlier, mirroring the
  read-modify-write in the source.
-/

/-- JavaScript Math.round (round half toward plus infinity) on rationals. -/
def jsRound (q : ℚ) : ℤ := Int.floor (q + 1/2)

/-- Math.round of a nonnegative quantity, as a natural number. -/
def jsRoundN (q : ℚ) : ℕ := (jsRound q).toNat

def msPerMinute : ℕ := 60000
def msPerHour : ℕ := 3600000
def msPerDay : ℕ := 86400000

/-- Calendar day of a millisecond timestamp (UTC date of the ISO string). -/
def dayOf (t : ℕ) : ℕ := t / msPerDay

/-- Entry of the in-memory rate-limit / failed-attempt maps. -/
structure RLEntry where
  count : ℕ
  resetAt : ℕ
deriving DecidableEq

/-- In-memory counter map keyed by string, as in the source Maps. -/
abbrev RLMap : Type := List (String × RLEntry)

def rlLookup (m : RLMap) (k : String) : Option RLEntry :=
  (List.find? (fun p => decide (p.1 = k)) m).map (·.2)

def rlSet (m : RLMap) (k : String) (v : RLEntry) : RLMap :=
  if (rlLookup m k).isSome then
    List.map (fun p => if p.1 = k then (k, v) else p) m
  else
    m ++ [(k, v)]

def rlDelete (m : RLMap) (k : String) : RLMap :=
  List.filter (fun p => decide (p.1 ≠ k)) m

/-- checkRateLimit from the source: fixed 60 second window, lazy reset. -/
def checkRateLimit (now : ℕ) (m : RLMap) (key : String) (maxPerMinute : ℕ) :
    Bool × RLMap :=
  match rlLookup m key with
  | none => (true, rlSet m key ⟨1, now + msPerMinute⟩)
  | some e =>
    if now > e.resetAt then (true, rlSet m key ⟨1, now + msPerMinute⟩)
    else if e.count ≥ maxPerMinute then (false, m)
    else (true, rlSet m key ⟨e.count + 1, e.resetAt⟩)

/-- trackFailedAttempt from the source: 1 hour window, returns new count. -/
def trackFailedAttempt (now : ℕ) (m : RLMap) (key : String) : ℕ × RLMap :=
  match rlLookup m key with
  | none => (1, rlSet m key ⟨1, now + msPerHour⟩)
  | some e =>
    if now > e.resetAt then (1, rlSet m key ⟨1, now + msPerHour⟩)
    else (e.count + 1, rlSet m key ⟨e.count + 1, e.resetAt⟩)

/-- isLockedOut from the source: locked at 10 or more failures in window. -/
def isLockedOut (now : ℕ) (m : RLMap) (key : String) : Bool × RLMap :=
  match rlLookup m key with
  | none => (false, m)
  | some e =>
    if now > e.resetAt then (false, rlDelete m key)
    else (e.count ≥ 10, m)

inductive Severity where
  | low | medium | high | critical
deriving DecidableEq

inductive PStatus where
  | pending | processed
deriving DecidableEq

inductive QStatus where
  | active | completed | expired
deriving DecidableEq

structure UserProfile where
  userId : String
  balance : ℤ
  totalEarned : ℕ
  xp : ℕ
  dailyStreak : ℕ
  lastLogin : Option ℕ
  referredBy : Option String
  referralCode : String
  role : String
deriving DecidableEq

structure TaskRow where
  id : String
  title : String
  rewardAmount : ℕ
  xpReward : ℕ
  category : String
  taskType : String
  requiredLevel : ℕ
  isActive : Bool
deriving DecidableEq

structure UserTask where
  id : String
  userId : String
  taskId : String
  status : String
  completedAt : ℕ
deriving DecidableEq

structure CodeWindow where
  id : String
  taskId : String
  code : String
  validFrom : ℕ
  validUntil : ℕ
  maxRedemptions : Option ℕ
  currentRedemptions : ℕ
  isActive : Bool
  createdAt : ℕ
deriving DecidableEq

structure Redemption where
  id : String
  userId : String
  taskId : String
  windowId : String
  redeemedAt : ℕ
  ipHash : String
  deviceHash : String
  userAgent : String
deriving DecidableEq

structure Txn where
  id : String
  userId : String
  amount : ℤ
  kind : String
  description : String
deriving DecidableEq

structure RewardLog where
  id : String
  userId : String
  rewardType : String
  rewardAmount : ℕ
  sourceId : String
  sourceType : String
  ipHash : String
deriving DecidableEq

structure AbuseFlag where
  id : String
  userId : String
  flagType : String
  severity : Severity
  resolved : Bool
deriving DecidableEq

structure QuizQuestion where
  id : String
  correctOption : ℤ
  rewardAmount : ℕ
  difficulty : String
deriving DecidableEq

structure QuizSession where
  id : String
  userId : String
  questionCount : ℕ
  difficulty : String
  questionIds : List String
  answeredIds : List String
  score : ℕ
  totalEarned : ℕ
  status : QStatus
  startedAt : ℕ
  completedAt : Option ℕ
deriving DecidableEq

structure PendingReward where
  id : String
  userId : String
  rewardAmount : ℕ
  rewardType : String
  sourceId : String
  sourceType : String
  processAt : Option ℕ
  status : PStatus
deriving DecidableEq

structure ReferralCommission where
  id : String
  referrerId : String
  referredId : String
  sourceRewardId : String
  commissionAmount : ℕ
  status : PStatus
  eligibleAt : Option ℕ
  processedAt : Option ℕ
deriving DecidableEq

structure ReferralRecord where
  id : String
  referrerId : String
  referredId : String
  rewardAmount : ℕ
  createdAt : ℕ
deriving DecidableEq

structure PlatformMetric where
  id : String
  metricDate : ℕ
  totalRewardsIssued : ℕ
  totalDailyRewards : ℕ
  taskRewardsIssued : ℕ
  referralRewardsIssued : ℕ
  quizRewardsIssued : ℕ
  gameRewardsIssued : ℕ
  codeRewardsIssued : ℕ
  activeUsersToday : ℕ
deriving DecidableEq

/-- The whole persistent state the engine reads and writes (the database),
plus the two in-process counter maps. -/
structure EngineState where
  profiles : List UserProfile
  tasks : List TaskRow
  userTasks : List UserTask
  windows : List CodeWindow
  redemptions : List Redemption
  transactions : List Txn
  rewardLogs : List RewardLog
  abuseFlags : List AbuseFlag
  quizzes : List QuizQuestion
  quizSessions : List QuizSession
  pendingRewards : List PendingReward
  commissions : List ReferralCommission
  referralHistory : List ReferralRecord
  metrics : List PlatformMetric
  rateLimits : RLMap
  failedAttempts : RLMap
deriving DecidableEq

def emptyState : EngineState :=
  ⟨[], [], [], [], [], [], [], [], [], [], [], [], [], [], [], []⟩

/-- JavaScript String.prototype.trim. -/
def strTrim (s : String) : String :=
  ⟨((s.data.dropWhile Char.isWhitespace).reverse.dropWhile Char.isWhitespace).reverse⟩

/-- JavaScript String.prototype.toUpperCase on the code alphabet. -/
def strUpper (s : String) : String := ⟨s.data.map Char.toUpper⟩

/-- JavaScript String.prototype.slice(0, n). -/
def strTake (s : String) (n : ℕ) : String := ⟨s.data.take n⟩

/-- JavaScript String.prototype.slice(-n). -/
def strTakeRight (s : String) (n : ℕ) : String :=
  ⟨s.data.drop (s.data.length - n)⟩

/-- Row id generation, standing in for the template ids of the source. -/
def mkId (p : String) (now : ℕ) (suf : String) : String :=
  p ++ "_" ++ toString now ++ "_" ++ suf

def findProfile (s : EngineState) (uid : String) : Option UserProfile :=
  List.find? (fun p => decide (p.userId = uid)) s.profiles

/-- Write the given row over every profile row matching the user id
(the read-modify-write UPDATE of the source). -/
def writeProfileRows : List UserProfile → String → UserProfile → List UserProfile
  | [], _, _ => []
  | p :: ps, uid, row =>
    (if p.userId = uid then row else p) :: writeProfileRows ps uid row

def writeProfile (s : EngineState) (uid : String) (row : UserProfile) :
    EngineState :=
  { s with profiles := writeProfileRows s.profiles uid row }

def pushFlag (s : EngineState) (f : AbuseFlag) : EngineState :=
  { s with abuseFlags := s.abuseFlags ++ [f] }

def pushTxn (s : EngineState) (t : Txn) : EngineState :=
  { s with transactions := s.transactions ++ [t] }

def pushLog (s : EngineState) (l : RewardLog) : EngineState :=
  { s with rewardLogs := s.rewardLogs ++ [l] }

def pushRedemption (s : EngineState) (r : Redemption) : EngineState :=
  { s with redemptions := s.redemptions ++ [r] }

def pushCommission (s : EngineState) (c : ReferralCommission) : EngineState :=
  { s with commissions := s.commissions ++ [c] }

def pushUserTask (s : EngineState) (t : UserTask) : EngineState :=
  { s with userTasks := s.userTasks ++ [t] }

def pushReferralRecord (s : EngineState) (r : ReferralRecord) : EngineState :=
  { s with referralHistory := s.referralHistory ++ [r] }

/-- Insertion sort, descending in the given key: stands in for the
`order(..., ascending: false)` of the database queries. -/
def insertDesc {α : Type} (key : α → ℕ) (x : α) : List α → List α
  | [] => [x]
  | y :: ys => if key y ≤ key x then x :: y :: ys else y :: insertDesc key x ys

def sortByDesc {α : Type} (key : α → ℕ) : List α → List α
  | [] => []
  | x :: xs => insertDesc key x (sortByDesc key xs)

/-- Field update of trackMetric: `fieldMap` plus the two running totals. -/
def metricBump (m : PlatformMetric) (rewardType : String) (amount : ℕ) :
    PlatformMetric :=
  let m := { m with
    totalRewardsIssued := m.totalRewardsIssued + amount,
    totalDailyRewards := m.totalDailyRewards + amount }
  if rewardType = "referral" then
    { m with referralRewardsIssued := m.referralRewardsIssued + amount }
  else if rewardType = "quiz" then
    { m with quizRewardsIssued := m.quizRewardsIssued + amount }
  else if rewardType = "game" then
    { m with gameRewardsIssued := m.gameRewardsIssued + amount }
  else if rewardType = "code" then
    { m with codeRewardsIssued := m.codeRewardsIssued + amount }
  else
    { m with taskRewardsIssued := m.taskRewardsIssued + amount }

/-- trackMetric from the source: upsert of the daily counters row. -/
def trackMetric (s : EngineState) (rewardType : String) (amount : ℕ)
    (now : ℕ) : EngineState :=
  let today := dayOf now
  match List.find? (fun m => decide (m.metricDate = today)) s.metrics with
  | some m =>
    let rows := List.map (fun x => if x.id = m.id then metricBump m rewardType amount else x) s.metrics
    { s with metrics := rows }
  | none =>
    { s with metrics := s.metrics ++
        [metricBump ⟨"pm_" ++ toString today, today, 0, 0, 0, 0, 0, 0, 0, 0⟩
          rewardType amount] }

/-- Result of checkAbuseThrottling. -/
structure AbuseCheck where
  allowed : Bool
  multiplier : ℚ
  reason : Option String
deriving DecidableEq

/-- Unresolved abuse flags of a user, at most 10 (the `limit(10)` read). -/
def unresolvedFlagsFor (s : EngineState) (uid : String) : List AbuseFlag :=
  (List.filter (fun f => decide (f.userId = uid ∧ f.resolved = false))
    s.abuseFlags).take 10

/-- Redemptions of the user in the trailing ten minutes among the 20 most
recent rows (the velocity read of checkAbuseThrottling). -/
def recentVelocityCount (s : EngineState) (uid : String) (now : ℕ) : ℕ :=
  (List.filter (fun r => decide ((now : ℤ) - 600000 < (r.redeemedAt : ℤ)))
    ((sortByDesc (·.redeemedAt)
      (List.filter (fun r => decide (r.userId = uid)) s.redemptions)).take 20)).length

/-- Distinct users redeeming from the ip hash in the trailing 24 hours,
among the 50 most recent rows for that hash. -/
def distinctUsersFromIP (s : EngineState) (ipHash : String) (now : ℕ) : ℕ :=
  (((List.filter (fun r => decide ((now : ℤ) - 86400000 < (r.redeemedAt : ℤ)))
      ((sortByDesc (·.redeemedAt)
        (List.filter (fun r => decide (r.ipHash = ipHash)) s.redemptions)).take 50)).map
    (·.userId)).dedup).length

/-- checkAbuseThrottling from the source. -/
def checkAbuseThrottling (s : EngineState) (uid ipHash : String) (now : ℕ) :
    AbuseCheck × EngineState :=
  let flags := unresolvedFlagsFor s uid
  if flags.any (fun f => decide (f.severity = .high ∨ f.severity = .critical)) then
    (⟨false, 0, some "Account flagged for review"⟩, s)
  else
    let m1 : ℚ := 1
    let m2 := if recentVelocityCount s uid now ≥ 5 then m1 * (1/2) else m1
    let m3 := if distinctUsersFromIP s ipHash now > 3 then m2 * (1/4) else m2
    let s1 :=
      if distinctUsersFromIP s ipHash now > 3 then
        pushFlag s ⟨mkId "af" now (strTakeRight uid 4), uid, "multi_account_ip",
          .medium, false⟩
      else s
    let m4 := if flags.length > 0 ∧ flags.length < 3 then m3 * (3/4) else m3
    (⟨true, max m4 (1/10), none⟩, s1)

/-- Payload of a successful code redemption response. -/
structure RedeemPayload where
  reward : ℕ
  multiplier : ℚ
  newBalance : ℤ
deriving DecidableEq

inductive RedeemResult where
  | ok (p : RedeemPayload)
  | err (msg : String) (status : ℕ)
deriving DecidableEq

def RedeemResult.isErr : RedeemResult → Bool
  | .ok _ => false
  | .err _ _ => true

/-- Which of the three error-checked writes of the redemption unit fail.
The later writes (transactions, reward log, metrics, commission) are not
error-checked in the source and cannot abort the unit. -/
structure WriteFails where
  failRedemption : Bool
  failWindow : Bool
  failProfile : Bool
deriving DecidableEq

def noFails : WriteFails := ⟨false, false, false⟩

/-- Qualifying activity of a referred user: completed tasks plus
redemptions, each read with `limit(5)`. -/
def qualifyingActivity (s : EngineState) (uid : String) : ℕ :=
  ((List.filter (fun t => decide (t.userId = uid ∧ t.status = "completed"))
      s.userTasks).take 5).length +
  ((List.filter (fun r => decide (r.userId = uid)) s.redemptions).take 5).length

/-- Nonempty ip hashes of the five most recent redemptions of a user. -/
def recentIPsOf (s : EngineState) (uid : String) : List String :=
  List.filter (fun ip => decide (ip ≠ ""))
    (((sortByDesc (·.redeemedAt)
        (List.filter (fun r => decide (r.userId = uid)) s.redemptions)).take 5).map
      (·.ipHash))

/-- Whether referrer and referred share a recent redemption ip hash. -/
def referralIPOverlap (s : EngineState) (referrerId uid : String) : Bool :=
  (recentIPsOf s referrerId).any (fun ip => (recentIPsOf s uid).contains ip)

/-- processReferralCommission from the source: schedules a pending 10
percent commission for the referrer, maturing 24 hours later, when the
referred user qualifies. -/
def processReferralCommission (s : EngineState) (uid : String)
    (earnedAmount : ℕ) (sourceId : String) (now : ℕ) : EngineState :=
  match findProfile s uid with
  | none => s
  | some profile =>
    match profile.referredBy with
    | none => s
    | some referrerId =>
      if qualifyingActivity s uid < 2 then s
      else if referralIPOverlap s referrerId uid then
        pushFlag s ⟨mkId "af" now "refip", uid, "referral_ip_match", .low, false⟩
      else
        let commissionAmount := jsRoundN ((earnedAmount : ℚ) * (1/10))
        if commissionAmount < 1 then s
        else
          pushCommission s ⟨mkId "rc" now (strTakeRight referrerId 4), referrerId,
            uid, sourceId, commissionAmount, .pending, some (now + msPerDay), none⟩

/-- Capacity check of a code window: the truthiness test
`window.max_redemptions && current_redemptions >= max_redemptions`. -/
def capReached (w : CodeWindow) : Bool :=
  match w.maxRedemptions with
  | some m => decide (m ≠ 0 ∧ w.currentRedemptions ≥ m)
  | none => false

/-- Branch of redeemTaskCode for a code matching no active window: count
the failure and raise a brute-force flag from the eighth failure on. -/
def redeemInvalidCode (s : EngineState) (uid : String) (ipHash : String)
    (now : ℕ) : RedeemResult × EngineState :=
  let (failCount, fa) := trackFailedAttempt now s.failedAttempts ("lockout:" ++ uid)
  let s1 := { s with failedAttempts := fa }
  let s2 :=
    if failCount ≥ 8 then
      pushFlag s1 ⟨mkId "af" now (strTakeRight uid 4), uid, "brute_force_codes",
        .medium, false⟩
    else s1
  (.err "Invalid or expired code" 400, s2)

/-- The reward amount of a window before the fraud multiplier: the linked
task reward, or 100 for a general code or a missing task. -/
def windowBaseReward (s : EngineState) (w : CodeWindow) : ℕ :=
  if w.taskId ≠ "" ∧ w.taskId ≠ "general" then
    match List.find? (fun t => decide (t.id = w.taskId)) s.tasks with
    | some t => if t.rewardAmount = 0 then 100 else t.rewardAmount
    | none => 100
  else 100

/-- Task id recorded on a redemption row: the window task id, with the
empty (falsy) value replaced by the general sentinel. -/
def windowTaskId (w : CodeWindow) : String :=
  if w.taskId = "" then "general" else w.taskId

/-- The mutation unit of redeemTaskCode: redemption insert, window counter
increment, profile credit, then the unchecked log/metric/commission writes.
On a failing checked write the source catch block reports an internal error
and performs no rollback of the earlier writes. -/
def redeemApplyUnit (s1 : EngineState) (uid : String) (w : CodeWindow)
    (profile : UserProfile) (reward : ℕ) (multiplier : ℚ)
    (cleanCode ipHash deviceHash userAgent : String) (now : ℕ)
    (wf : WriteFails) : RedeemResult × EngineState :=
  if wf.failRedemption then
    (.err "Failed to process redemption" 500, s1)
  else
    let s2 := pushRedemption s1 ⟨mkId "rd" now (strTakeRight uid 4), uid,
      windowTaskId w, w.id, now, ipHash, deviceHash, strTake userAgent 200⟩
    if wf.failWindow then
      (.err "Failed to process redemption" 500, s2)
    else
      let wrows := List.map (fun x => if x.id = w.id then { x with currentRedemptions := w.currentRedemptions + 1 } else x) s2.windows
      let s3 := { s2 with windows := wrows }
      if wf.failProfile then
        (.err "Failed to process redemption" 500, s3)
      else
        let s4 := writeProfile s3 uid { profile with
          balance := profile.balance + reward,
          totalEarned := profile.totalEarned + reward,
          xp := profile.xp + 10 }
        let s5 := pushTxn s4 ⟨mkId "tx" now (strTakeRight uid 4), uid,
          (reward : ℤ), "code_redemption",
          "Redeemed code: " ++ strTake cleanCode 3 ++ "***"⟩
        let s6 := pushLog s5 ⟨mkId "log" now (strTakeRight uid 4), uid,
          "code_redemption", reward, w.id, "task_code_window", ipHash⟩
        let s7 := trackMetric s6 "code" reward now
        let s8 := processReferralCommission s7 uid reward w.id now
        (.ok ⟨reward, multiplier, profile.balance + reward⟩, s8)

/-- Tail of redeemTaskCode after the duplicate check: fraud scoring, reward
resolution, profile lookup, then the mutation unit. -/
def redeemEligible (s : EngineState) (uid : String) (w : CodeWindow)
    (cleanCode ipHash deviceHash userAgent : String) (now : ℕ)
    (wf : WriteFails) : RedeemResult × EngineState :=
  let (abuse, s1) := checkAbuseThrottling s uid ipHash now
  if abuse.allowed = false then
    (.err (abuse.reason.getD "Account under review") 400, s1)
  else
    let reward := jsRoundN ((windowBaseReward s1 w : ℚ) * abuse.multiplier)
    match findProfile s1 uid with
    | none => (.err "Profile not found" 400, s1)
    | some profile =>
      redeemApplyUnit s1 uid w profile reward abuse.multiplier cleanCode
        ipHash deviceHash userAgent now wf

/-- redeemTaskCode from the source. `code` is the request body field
(absent or present); `wf` says which of the three error-checked writes of
the mutation unit fail. -/
def redeemTaskCode (s : EngineState) (uid : String) (code : Option String)
    (ipHash deviceHash userAgent : String) (now : ℕ) (wf : WriteFails) :
    RedeemResult × EngineState :=
  let badFormat : Bool :=
    match code with
    | none => true
    | some c => decide ((strTrim c).length < 6)
  if badFormat then
    let (_, fa) := trackFailedAttempt now s.failedAttempts ("lockout:" ++ uid)
    (.err "Invalid code format" 400, { s with failedAttempts := fa })
  else
    let cleanCode := strUpper (strTrim (Option.getD code ""))
    match List.find? (fun w => decide (w.code = cleanCode ∧ w.isActive = true)) s.windows with
    | none => redeemInvalidCode s uid ipHash now
    | some w =>
      if now < w.validFrom ∨ now > w.validUntil then
        let (_, fa) := trackFailedAttempt now s.failedAttempts ("lockout:" ++ uid)
        (.err "Code has expired or not yet active" 400, { s with failedAttempts := fa })
      else if capReached w then
        (.err "Code has reached maximum redemptions" 400, s)
      else if (List.find? (fun r => decide (r.userId = uid ∧ r.windowId = w.id))
                s.redemptions).isSome then
        (.err "You already redeemed this code" 400, s)
      else
        redeemEligible s uid w cleanCode ipHash deviceHash userAgent now wf

/-- processReward from the source: credits one matured pending reward and
flips its status. -/
def processReward (s : EngineState) (item : PendingReward) (now : ℕ) :
    EngineState :=
  match findProfile s item.userId with
  | none => s
  | some profile =>
    let s1 := writeProfile s item.userId { profile with
      balance := profile.balance + item.rewardAmount,
      totalEarned := profile.totalEarned + item.rewardAmount,
      xp := profile.xp + 10 }
    let prows := List.map (fun x => if x.id = item.id then { x with status := PStatus.processed } else x) s1.pendingRewards
    let s2 := { s1 with pendingRewards := prows }
    let s3 := pushTxn s2 ⟨mkId "tx" now (strTakeRight item.userId 4), item.userId,
      (item.rewardAmount : ℤ), item.rewardType, "Delayed reward processed"⟩
    pushLog s3 ⟨mkId "log" now (strTakeRight item.userId 4), item.userId,
      item.rewardType, item.rewardAmount, item.sourceId, item.sourceType, ""⟩

/-- processCommission from the source: credits one matured referral
commission to the referrer and flips its status. -/
def processCommission (s : EngineState) (comm : ReferralCommission) (now : ℕ) :
    EngineState :=
  match findProfile s comm.referrerId with
  | none => s
  | some profile =>
    let s1 := writeProfile s comm.referrerId { profile with
      balance := profile.balance + comm.commissionAmount,
      totalEarned := profile.totalEarned + comm.commissionAmount,
      xp := profile.xp + 5 }
    let crows := List.map (fun x => if x.id = comm.id then { x with status := PStatus.processed, processedAt := some now } else x) s1.commissions
    let s2 := { s1 with commissions := crows }
    let s3 := pushTxn s2 ⟨mkId "tx" now (strTakeRight comm.referrerId 4),
      comm.referrerId, (comm.commissionAmount : ℤ), "referral_commission",
      "Referral commission from user activity"⟩
    trackMetric s3 "referral" comm.commissionAmount now

/-- autoProcessPending from the source: the sweep run at the top of every
authenticated request. -/
def autoProcessPending (s : EngineState) (uid : String) (now : ℕ) :
    EngineState :=
  let pend := (List.filter (fun p => decide (p.userId = uid ∧ p.status = PStatus.pending)) s.pendingRewards).take 20
  let s1 := pend.foldl (fun acc item =>
    if (match item.processAt with | some t => decide (t ≤ now) | none => false) then
      processReward acc item now
    else acc) s
  let comms := (List.filter (fun c => decide (c.referrerId = uid ∧ c.status = PStatus.pending)) s1.commissions).take 20
  comms.foldl (fun acc c =>
    if (match c.eligibleAt with | some t => decide (t ≤ now) | none => false) then
      processCommission acc c now
    else acc) s1

/-- The handler path for action redeem_task_code: the per-ip code rate
limit, the lockout gate, the per-user action rate limit, the
auto-processing sweep, then redeemTaskCode itself. -/
def handleRedeemAction (s : EngineState) (uid : String) (code : Option String)
    (ipHash deviceHash userAgent : String) (now : ℕ) (wf : WriteFails) :
    RedeemResult × EngineState :=
  let (ok1, rl1) := checkRateLimit now s.rateLimits ("code_ip:" ++ ipHash) 5
  let s1 := { s with rateLimits := rl1 }
  if ok1 = false then
    (.err "Too many code attempts. Wait a minute." 429, s1)
  else
    let (locked, fa) := isLockedOut now s1.failedAttempts ("lockout:" ++ uid)
    let s2 := { s1 with failedAttempts := fa }
    if locked then
      (.err "Account temporarily locked due to too many failed attempts." 429, s2)
    else
      let (ok2, rl2) := checkRateLimit now s2.rateLimits (uid ++ ":redeem_task_code") 10
      let s3 := { s2 with rateLimits := rl2 }
      if ok2 = false then
        (.err "Rate limited. Try again later." 429, s3)
      else
        let s4 := autoProcessPending s3 uid now
        redeemTaskCode s4 uid code ipHash deviceHash userAgent now wf

structure TaskPayload where
  reward : ℕ
  xp : ℕ
  newBalance : ℤ
deriving DecidableEq

inductive TaskResult where
  | ok (p : TaskPayload)
  | err (msg : String) (status : ℕ)
deriving DecidableEq

/-- Referral-count threshold encoded in the referral task ids. -/
def referralRequiredCount (taskId : String) : ℕ :=
  if taskId = "task_refer_1" then 1
  else if taskId = "task_refer_5" then 5 else 25

/-- Settlement tail of completeTask: the writes performed once every
eligibility gate has passed. -/
def completeTaskApply (s : EngineState) (uid taskId : String) (task : TaskRow)
    (profile : UserProfile) (now : ℕ) : TaskResult × EngineState :=
  let reward := task.rewardAmount
  let xpReward := task.xpReward
  let s1 := pushUserTask s ⟨mkId "ut" now (strTakeRight uid 4), uid,
    taskId, "completed", now⟩
  let s2 := writeProfile s1 uid { profile with
    balance := profile.balance + reward,
    totalEarned := profile.totalEarned + reward,
    xp := profile.xp + xpReward }
  let s3 := pushTxn s2 ⟨mkId "tx" now (strTakeRight uid 4), uid,
    (reward : ℤ), "task", "Completed: " ++ task.title⟩
  let s4 := pushLog s3 ⟨mkId "log" now (strTakeRight uid 4), uid,
    "task", reward, taskId, task.category, ""⟩
  let s5 := trackMetric s4 "task" reward now
  let s6 := processReferralCommission s5 uid reward taskId now
  (.ok ⟨reward, xpReward, profile.balance + reward⟩, s6)

/-- completeTask from the source. -/
def completeTask (s : EngineState) (uid taskId : String) (now : ℕ) :
    TaskResult × EngineState :=
  if taskId = "" then (.err "Missing taskId" 400, s)
  else
    match List.find? (fun t => decide (t.id = taskId)) s.tasks with
    | none => (.err "Task not found" 400, s)
    | some task =>
      if task.isActive = false then (.err "Task is no longer active" 400, s)
      else
        match findProfile s uid with
        | none => (.err "Profile not found" 400, s)
        | some profile =>
          let userLevel := profile.totalEarned / 500 + 1
          if task.requiredLevel ≠ 0 ∧ userLevel < task.requiredLevel then
            (.err ("Requires Level " ++ toString task.requiredLevel) 400, s)
          else
            let completions := (List.filter
              (fun c => decide (c.userId = uid ∧ c.taskId = taskId)) s.userTasks).take 10
            if task.taskType = "one_time" ∧ completions.length > 0 then
              (.err "Task already completed" 400, s)
            else if task.taskType = "daily" ∧
                completions.any (fun c => decide (dayOf c.completedAt = dayOf now)) then
              (.err "Daily task already completed today" 400, s)
            else
              let referralCount := (List.filter
                (fun r => decide (r.referrerId = uid)) s.referralHistory).length
              let requiredCount := referralRequiredCount taskId
              if task.category = "referral" ∧ referralCount < requiredCount then
                (.err ("Need " ++ toString requiredCount ++ " referrals to claim") 400, s)
              else if task.category = "milestone" ∧ taskId = "task_earn_1000" ∧
                  profile.totalEarned < 1000 then
                (.err "Need 1,000 BIX total earnings" 400, s)
              else if task.category = "milestone" ∧ taskId = "task_earn_10000" ∧
                  profile.totalEarned < 10000 then
                (.err "Need 10,000 BIX total earnings" 400, s)
              else if task.category = "milestone" ∧ taskId = "task_streak_7" ∧
                  profile.dailyStreak < 7 then
                (.err "Need 7-day login streak" 400, s)
              else
                completeTaskApply s uid taskId task profile now

structure CheckinPayload where
  reward : ℕ
  streak : ℕ
  multiplier : ℚ
  xp : ℕ
deriving DecidableEq

inductive CheckinResult where
  | ok (p : CheckinPayload)
  | err (msg : String) (status : ℕ)
deriving DecidableEq

/-- The active_users_today bump of dailyCheckin: increments the counter on
an existing daily metrics row and does nothing when none exists yet. -/
def bumpActiveUsers (s : EngineState) (today : ℕ) : EngineState :=
  match List.find? (fun m => decide (m.metricDate = today)) s.metrics with
  | some m =>
    let rows := List.map (fun x => if x.id = m.id then { m with activeUsersToday := m.activeUsersToday + 1 } else x) s.metrics
    { s with metrics := rows }
  | none => s

/-- dailyCheckin from the source. Dates are day numbers; the previous
calendar day of `today` is `today - 1`. -/
def dailyCheckin (s : EngineState) (uid : String) (now : ℕ) :
    CheckinResult × EngineState :=
  match findProfile s uid with
  | none => (.err "Profile not found" 400, s)
  | some profile =>
    let today := dayOf now
    if profile.lastLogin = some today then
      (.err "Already checked in today" 400, s)
    else
      let newStreak : ℕ :=
        if profile.lastLogin = some (today - 1) then profile.dailyStreak + 1 else 1
      let multiplier : ℚ := min (1 + ((newStreak : ℚ) - 1) * (1/2)) 5
      let baseReward : ℚ := 10
      let reward := jsRoundN (baseReward * multiplier)
      let xpReward := 5 + newStreak
      let s1 := writeProfile s uid { profile with
        balance := profile.balance + reward,
        totalEarned := profile.totalEarned + reward,
        lastLogin := some today,
        dailyStreak := newStreak,
        xp := profile.xp + xpReward }
      let s2 := pushTxn s1 ⟨mkId "tx" now (strTakeRight uid 4), uid, (reward : ℤ),
        "daily", "Daily check-in streak reward"⟩
      let s3 := bumpActiveUsers s2 today
      let s4 := trackMetric s3 "daily" reward now
      (.ok ⟨reward, newStreak, multiplier, xpReward⟩, s4)

structure AnswerPayload where
  isCorrect : Bool
  correctOption : ℤ
  earned : ℕ
  sessionScore : ℕ
  sessionEarned : ℕ
  answeredCount : ℕ
  totalQuestions : ℕ
deriving DecidableEq

inductive AnswerResult where
  | ok (p : AnswerPayload)
  | err (msg : String) (status : ℕ)
deriving DecidableEq

def findActiveSession (s : EngineState) (sessionId uid : String) :
    Option QuizSession :=
  List.find? (fun q => decide (q.id = sessionId ∧ q.userId = uid ∧ q.status = QStatus.active))
    s.quizSessions

/-- Body of quizAnswer after the field-presence and anti-bot floor checks
(the part of the source from the session query on). -/
def quizAnswerCore (s : EngineState) (uid sessionId questionId : String)
    (selectedOption : ℤ) : AnswerResult × EngineState :=
  match findActiveSession s sessionId uid with
  | none => (.err "Invalid or expired session" 400, s)
  | some session =>
    if (session.questionIds.contains questionId) = false then
      (.err "Question not in this session" 400, s)
    else if session.answeredIds.contains questionId then
      (.err "Question already answered" 400, s)
    else
      match List.find? (fun q => decide (q.id = questionId)) s.quizzes with
      | none => (.err "Question not found" 400, s)
      | some question =>
        let isCorrect := decide (selectedOption = question.correctOption)
        let answered := session.answeredIds ++ [questionId]
        let newScore := session.score + (if isCorrect then 1 else 0)
        let earnedForThis := if isCorrect then question.rewardAmount else 0
        let newTotalEarned := session.totalEarned + earnedForThis
        let srows := List.map (fun x => if x.id = sessionId then { session with answeredIds := answered, score := newScore, totalEarned := newTotalEarned } else x) s.quizSessions
        let s1 := { s with quizSessions := srows }
        (.ok ⟨isCorrect, question.correctOption, earnedForThis, newScore,
          newTotalEarned, answered.length, session.questionIds.length⟩, s1)

/-- quizAnswer from the source: missing-field check, then the anti-bot
floor applied only when timeTaken is present, then the core. -/
def quizAnswer (s : EngineState) (uid sessionId questionId : String)
    (selectedOption : Option ℤ) (timeTaken : Option ℤ) :
    AnswerResult × EngineState :=
  if sessionId = "" ∨ questionId = "" ∨ selectedOption = none then
    (.err "Missing required fields" 400, s)
  else if (match timeTaken with | some t => decide (t < 1) | none => false) then
    (.err "Answer too fast - suspicious activity" 400, s)
  else
    quizAnswerCore s uid sessionId questionId (selectedOption.getD 0)

structure FinishPayload where
  score : ℕ
  totalQuestions : ℕ
  totalReward : ℕ
  bonusReward : ℕ
  xp : ℕ
  isPerfect : Bool
deriving DecidableEq

inductive FinishResult where
  | ok (p : FinishPayload)
  | err (msg : String) (status : ℕ)
deriving DecidableEq

/-- Settlement tail of finishQuiz for a fully-answered active session. -/
def finishQuizSettle (s : EngineState) (uid sessionId : String)
    (session : QuizSession) (now : ℕ) : FinishResult × EngineState :=
  let score := session.score
  let bonusReward : ℕ :=
    if score = session.questionIds.length then
      jsRoundN ((session.totalEarned : ℚ) * (1/2))
    else 0
  let totalReward := session.totalEarned + bonusReward
  let xpReward := score * 5 + (if bonusReward > 0 then 50 else 0)
  let srows := List.map (fun x => if x.id = sessionId then { session with status := QStatus.completed, completedAt := some now, totalEarned := totalReward } else x) s.quizSessions
  let s1 := { s with quizSessions := srows }
  let s2 :=
    match findProfile s1 uid with
    | none => s1
    | some profile =>
      writeProfile s1 uid { profile with
        balance := profile.balance + totalReward,
        totalEarned := profile.totalEarned + totalReward,
        xp := profile.xp + xpReward }
  let s3 := pushTxn s2 ⟨mkId "tx" now (strTakeRight uid 4), uid,
    (totalReward : ℤ), "quiz", "Quiz completed"⟩
  let s4 := pushLog s3 ⟨mkId "log" now (strTakeRight uid 4), uid, "quiz",
    totalReward, sessionId, "quiz_session", ""⟩
  let s5 := trackMetric s4 "quiz" totalReward now
  let s6 := processReferralCommission s5 uid totalReward sessionId now
  (.ok ⟨score, session.questionIds.length, totalReward, bonusReward,
    xpReward, decide (score = session.questionIds.length)⟩, s6)

/-- finishQuiz from the source: settles an active fully-answered session,
paying a 50 percent bonus on the session earnings for a perfect score. -/
def finishQuiz (s : EngineState) (uid sessionId : String) (now : ℕ) :
    FinishResult × EngineState :=
  if sessionId = "" then (.err "Missing sessionId" 400, s)
  else
    match findActiveSession s sessionId uid with
    | none => (.err "Invalid or expired session" 400, s)
    | some session =>
      if session.answeredIds.length < session.questionIds.length then
        (.err ("Answer all questions first (" ++ toString session.answeredIds.length
          ++ "/" ++ toString session.questionIds.length ++ ")") 400, s)
      else
        finishQuizSettle s uid sessionId session now

structure GamePayload where
  multiplier : ℕ
  netChange : ℤ
  newBalance : ℤ
deriving DecidableEq

inductive GameResult where
  | ok (p : GamePayload)
  | err (msg : String) (status : ℕ)
deriving DecidableEq

/-- Multiplier drawn by gameResult from the random roll. -/
def gameMultiplier (gameType : String) (roll : ℚ) : ℕ :=
  if gameType = "roulette" then
    if roll > 9/10 then 5
    else if roll > 6/10 then 2
    else 0
  else if gameType = "coinflip" then
    if roll > 1/2 then 2 else 0
  else 0

/-- gameResult from the source; `roll` stands for the Math.random draw. -/
def gameResult (s : EngineState) (uid gameType : String) (betAmount : ℤ)
    (roll : ℚ) (now : ℕ) : GameResult × EngineState :=
  if gameType = "" ∨ betAmount = 0 then
    (.err "Missing game parameters" 400, s)
  else if betAmount < 10 ∨ betAmount > 1000 then
    (.err "Bet must be between 10-1000 BIX" 400, s)
  else
    match findProfile s uid with
    | none => (.err "Profile not found" 400, s)
    | some profile =>
      if profile.balance < betAmount then
        (.err "Insufficient balance" 400, s)
      else
        let multiplier := gameMultiplier gameType roll
        let netChange := betAmount * multiplier - betAmount
        let s1 := writeProfile s uid { profile with
          balance := profile.balance + netChange }
        let s2 := pushTxn s1 ⟨mkId "tx" now (strTakeRight uid 4), uid, netChange,
          "game", gameType ++ " settled"⟩
        let s3 := trackMetric s2 "game" (if netChange > 0 then netChange.toNat else 0) now
        (.ok ⟨multiplier, netChange, profile.balance + netChange⟩, s3)

structure RefPayload where
  newUserReward : ℕ
deriving DecidableEq

inductive RefResult where
  | ok (p : RefPayload)
  | err (msg : String) (status : ℕ)
deriving DecidableEq

/-- Success tail of processReferral: history row, referredBy link plus
signup bonus, transaction, deferred referrer commission, metric. -/
def processReferralApply (s : EngineState) (newUserId referralCode : String)
    (referrer : UserProfile) (np : Option UserProfile) (now : ℕ) :
    RefResult × EngineState :=
  let newUserReward : ℕ := 50
  let s1 := pushReferralRecord s ⟨mkId "rh" now (strTakeRight newUserId 4),
    referrer.userId, newUserId, 0, now⟩
  let s2 :=
    match np with
    | none => s1
    | some newProfile =>
      writeProfile s1 newUserId { newProfile with
        referredBy := some referrer.userId,
        balance := newProfile.balance + newUserReward,
        totalEarned := newProfile.totalEarned + newUserReward,
        xp := newProfile.xp + 25 }
  let s3 := pushTxn s2 ⟨mkId "tx" now (strTakeRight newUserId 4),
    newUserId, (newUserReward : ℤ), "referral",
    "Referral bonus: joined via " ++ referralCode⟩
  let s4 := pushCommission s3 ⟨"rc_signup_" ++ toString now ++ "_" ++
    strTakeRight referrer.userId 4, referrer.userId, newUserId,
    "signup_referral", 100, .pending, some (now + msPerDay), none⟩
  let s5 := trackMetric s4 "referral" newUserReward now
  (.ok ⟨newUserReward⟩, s5)

/-- processReferral from the source: links a new user to a referrer,
grants the signup bonus, and schedules the fixed referrer commission. -/
def processReferral (s : EngineState) (newUserId referralCode ipHash : String)
    (now : ℕ) : RefResult × EngineState :=
  if referralCode = "" then (.err "Invalid referral code" 400, s)
  else
    match List.find? (fun p => decide (p.referralCode = referralCode)) s.profiles with
    | none => (.err "Invalid referral code - referrer not found" 400, s)
    | some referrer =>
      if referrer.userId = newUserId then
        (.err "Cannot refer yourself" 400, s)
      else
        let newProfile? := findProfile s newUserId
        if (match newProfile? with
            | some p => p.referredBy.isSome
            | none => false) then
          (.err "User already has a referrer" 400, s)
        else if (List.find? (fun r => decide (r.referredId = newUserId))
                  s.referralHistory).isSome then
          (.err "Referral already processed" 400, s)
        else
          let referrerIPs := List.filter (fun ip => decide (ip ≠ ""))
            (((List.filter (fun r => decide (r.userId = referrer.userId))
                s.redemptions).take 5).map (·.ipHash))
          if referrerIPs.contains ipHash then
            let s1 := pushFlag s ⟨mkId "af" now "selfref", newUserId,
              "referral_same_ip", .high, false⟩
            (.err "Referral rejected: suspicious activity detected" 400, s1)
          else
            let todayReferrals := List.filter
              (fun r => decide (r.referrerId = referrer.userId ∧ dayOf r.createdAt = dayOf now))
              (((List.filter (fun r => decide (r.referrerId = referrer.userId))
                  s.referralHistory)).take 50)
            if todayReferrals.length ≥ 10 then
              (.err "Referrer daily limit reached" 400, s)
            else
              processReferralApply s newUserId referralCode referrer newProfile? now

/-- totalEarned of the first profile row of a user (0 when absent). -/
def teRows (ps : List UserProfile) (u : String) : ℕ :=
  match List.find? (fun p => decide (p.userId = u)) ps with
  | some p => p.totalEarned
  | none => 0

def teOf (s : EngineState) (u : String) : ℕ := teRows s.profiles u

/-- balance of the first profile row of a user (0 when absent). -/
def balRows (ps : List UserProfile) (u : String) : ℤ :=
  match List.find? (fun p => decide (p.userId = u)) ps with
  | some p => p.balance
  | none => 0

def balOf (s : EngineState) (u : String) : ℤ := balRows s.profiles u

/-- dailyStreak of the first profile row of a user (0 when absent). -/
def streakOf (s : EngineState) (u : String) : ℕ :=
  match findProfile s u with
  | some p => p.dailyStreak
  | none => 0

/-- currentRedemptions of a code window by id (0 when absent). -/
def winCountOf (s : EngineState) (wid : String) : ℕ :=
  match List.find? (fun w => decide (w.id = wid)) s.windows with
  | some w => w.currentRedemptions
  | none => 0

/-- Pointwise monotonicity of totalEarned between two states. -/
def Mono (s s' : EngineState) : Prop := ∀ u, teOf s u ≤ teOf s' u

/-- One engine operation of the reward-granting surface, carrying the actor,
its request parameters, the request time and the random draws made inside. -/
inductive Op where
  | opCompleteTask (uid taskId : String) (now : ℕ)
  | opRedeemCode (uid : String) (code : Option String)
      (ipHash deviceHash userAgent : String) (now : ℕ) (wf : WriteFails)
  | opFinishQuiz (uid sessionId : String) (now : ℕ)
  | opDailyCheckin (uid : String) (now : ℕ)
  | opGameResult (uid gameType : String) (betAmount : ℤ) (roll : ℚ) (now : ℕ)
  | opProcessReferral (uid referralCode ipHash : String) (now : ℕ)
  | opQuizAnswer (uid sessionId questionId : String)
      (selectedOption timeTaken : Option ℤ)
  | opSweep (uid : String) (now : ℕ)

/-- State transition of one operation (the response is discarded). -/
def step (s : EngineState) : Op → EngineState
  | .opCompleteTask uid tid now => (completeTask s uid tid now).2
  | .opRedeemCode uid code ip dev ua now wf =>
      (redeemTaskCode s uid code ip dev ua now wf).2
  | .opFinishQuiz uid sid now => (finishQuiz s uid sid now).2
  | .opDailyCheckin uid now => (dailyCheckin s uid now).2
  | .opGameResult uid gt bet roll now => (gameResult s uid gt bet roll now).2
  | .opProcessReferral uid rc ip now => (processReferral s uid rc ip now).2
  | .opQuizAnswer uid sid qid sel tt => (quizAnswer s uid sid qid sel tt).2
  | .opSweep uid now => autoProcessPending s uid now

def runOps (s : EngineState) (ops : List Op) : EngineState := ops.foldl step s

/-- Concrete fixture: a fresh profile. -/
def sampleProfile (uid : String) : UserProfile :=
  ⟨uid, 0, 0, 0, 0, none, none, "", "user"⟩

/-- Concrete fixture for the redemption claims: one active general window
with code ABCDEF23, capacity bound given by the argument. -/
def sampleWindow (cap : Option ℕ) : CodeWindow :=
  ⟨"w1", "general", "ABCDEF23", 0, 1000000000, cap, 0, true, 0⟩

/-- State holding the sample window and the profile of alice. -/
def redeemState (cap : Option ℕ) : EngineState :=
  { emptyState with
    profiles := [sampleProfile "alice"],
    windows := [sampleWindow cap] }

/-- Number of brute_force_codes flags raised for the canonical actor. -/
def bruteFlagCount (s : EngineState) : ℕ :=
  (List.filter (fun f => decide (f.userId = "actor_7" ∧ f.flagType = "brute_force_codes"))
    s.abuseFlags).length

/-- Canonical brute-force run: n consecutive invalid-code redemption
attempts by one actor, spaced 61 seconds apart so that the per-minute rate
windows always reset while every attempt stays inside the single 1-hour
failure-count window opened by the first failure. -/
def bruteRun (n : ℕ) : EngineState :=
  (List.range n).foldl
    (fun s i => (handleRedeemAction s "actor_7" (some "NOSUCHCODE") "ip_7" "" ""
      (61000 * i) noFails).2)
    emptyState

/-- Fixture: alice already holds a redemption of window w1. -/
def dupState : EngineState :=
  { emptyState with
    profiles := [sampleProfile "alice"],
    windows := [sampleWindow none],
    redemptions := [⟨"rd1", "alice", "general", "w1", 400, "ip1", "dev", "ua"⟩] }

/-- Fixture: one unresolved medium-severity flag for u1, no low flags. -/
def flaggedState : EngineState :=
  { emptyState with abuseFlags := [⟨"f1", "u1", "manual_review", .medium, false⟩] }

/-- Fixture: bob was referred by ref1 and has two completed tasks and no
redemptions, so every commission qualification of the spec holds. -/
def commissionState : EngineState :=
  { emptyState with
    profiles := [⟨"ref1", 0, 0, 0, 0, none, none, "REFCODE1", "user"⟩,
                 ⟨"bob", 0, 0, 0, 0, none, some "ref1", "BOBCODE1", "user"⟩],
    userTasks := [⟨"ut1", "bob", "t1", "completed", 0⟩,
                  ⟨"ut2", "bob", "t2", "completed", 0⟩] }

def tenQids : List String :=
  ["q1", "q2", "q3", "q4", "q5", "q6", "q7", "q8", "q9", "q10"]

/-- Fixture: an active fully-answered 10-question session of alice with a
perfect score and 200 BIX of session earnings (20 per question). -/
def quizFixture : EngineState :=
  { emptyState with
    profiles := [sampleProfile "alice"],
    quizSessions := [⟨"qs1", "alice", 10, "easy", tenQids, tenQids, 10, 200,
      .active, 0, none⟩] }

/-- Fixture: alice checked in yesterday (day 1) with a 4-day streak. -/
def checkinState : EngineState :=
  { emptyState with
    profiles := [⟨"alice", 0, 0, 0, 4, some 1, none, "", "user"⟩] }

/-- Fixture: alice holds exactly 10 BIX of balance for the game claim. -/
def gameState : EngineState :=
  { emptyState with
    profiles := [⟨"alice", 10, 0, 0, 0, none, none, "", "user"⟩] }

theorem findProfile_userId {s : EngineState} {uid : String} {p : UserProfile}
    (h : findProfile s uid = some p) : p.userId = uid := by
  have := List.find?_some h
  simpa using this

theorem find?_writeProfileRows_self (ps : List UserProfile) (uid : String)
    (row : UserProfile) (hrow : row.userId = uid) :
    List.find? (fun p => decide (p.userId = uid)) (writeProfileRows ps uid row) =
      (List.find? (fun p => decide (p.userId = uid)) ps).map (fun _ => row) := by
  induction ps with
  | nil => rfl
  | cons p ps ih =>
    rw [writeProfileRows]
    by_cases h : p.userId = uid
    · rw [if_pos h]
      rw [List.find?_cons_of_pos _ (by simpa using hrow),
        List.find?_cons_of_pos _ (by simpa using h)]
      rfl
    · rw [if_neg h]
      rw [List.find?_cons_of_neg _ (by simpa using h),
        List.find?_cons_of_neg _ (by simpa using h)]
      exact ih

theorem find?_writeProfileRows_other (ps : List UserProfile) (uid : String)
    (row : UserProfile) (u : String) (hrow : row.userId = uid) (hne : u ≠ uid) :
    List.find? (fun p => decide (p.userId = u)) (writeProfileRows ps uid row) =
      List.find? (fun p => decide (p.userId = u)) ps := by
  induction ps with
  | nil => rfl
  | cons p ps ih =>
    rw [writeProfileRows]
    by_cases h : p.userId = uid
    · have h1 : ¬ (row.userId = u) := by rw [hrow]; exact fun hc => hne hc.symm
      have h2 : ¬ (p.userId = u) := by rw [h]; exact fun hc => hne hc.symm
      rw [if_pos h, List.find?_cons_of_neg _ (by simpa using h1),
        List.find?_cons_of_neg _ (by simpa using h2)]
      exact ih
    · rw [if_neg h]
      by_cases h3 : p.userId = u
      · rw [List.find?_cons_of_pos _ (by simpa using h3),
          List.find?_cons_of_pos _ (by simpa using h3)]
      · rw [List.find?_cons_of_neg _ (by simpa using h3),
          List.find?_cons_of_neg _ (by simpa using h3)]
        exact ih

theorem writeProfileRows_not_found (ps : List UserProfile) (uid : String)
    (row : UserProfile)
    (h : List.find? (fun p => decide (p.userId = uid)) ps = none) :
    writeProfileRows ps uid row = ps := by
  induction ps with
  | nil => rfl
  | cons p ps ih =>
    rw [List.find?_cons] at h
    by_cases hp : p.userId = uid
    · simp [hp] at h
    · simp only [hp, decide_eq_true_eq, if_neg hp] at h
      rw [writeProfileRows, if_neg hp, ih (by simpa using h)]

theorem teRows_write_mono (ps : List UserProfile) (uid : String)
    (row : UserProfile) (hrow : row.userId = uid)
    (hle : teRows ps uid ≤ row.totalEarned) :
    ∀ u, teRows ps u ≤ teRows (writeProfileRows ps uid row) u := by
  intro u
  by_cases hu : u = uid
  · subst hu
    cases hfind : List.find? (fun p => decide (p.userId = u)) ps with
    | none => rw [writeProfileRows_not_found ps u row hfind]
    | some q =>
      unfold teRows
      rw [find?_writeProfileRows_self ps u row hrow, hfind]
      simpa [teRows, hfind] using hle
  · unfold teRows
    rw [find?_writeProfileRows_other ps uid row u hrow hu]

theorem monoRefl (s : EngineState) : Mono s s := fun _ => le_refl _

theorem monoTrans {s t u : EngineState} (h1 : Mono s t) (h2 : Mono t u) :
    Mono s u := fun x => le_trans (h1 x) (h2 x)

theorem mono_of_profiles_eq {s s' : EngineState} (h : s'.profiles = s.profiles) :
    Mono s s' := by
  intro u
  unfold teOf
  rw [h]

theorem teOf_eq_of_find {s : EngineState} {uid : String} {p : UserProfile}
    (h : findProfile s uid = some p) : teOf s uid = p.totalEarned := by
  unfold teOf teRows
  unfold findProfile at h
  rw [h]

theorem mono_writeProfile {s : EngineState} {uid : String} {row : UserProfile}
    (hrow : row.userId = uid) (hle : teOf s uid ≤ row.totalEarned) :
    Mono s (writeProfile s uid row) := by
  intro u
  unfold teOf writeProfile
  exact teRows_write_mono s.profiles uid row hrow hle u

theorem mono_of_profiles_write {s s' : EngineState} (uid : String)
    (row : UserProfile) (hp : s'.profiles = writeProfileRows s.profiles uid row)
    (hrow : row.userId = uid) (hle : teOf s uid ≤ row.totalEarned) :
    Mono s s' := by
  intro u
  unfold teOf
  rw [hp]
  exact teRows_write_mono s.profiles uid row hrow hle u

theorem findProfile_writeProfile_self {s : EngineState} {uid : String}
    {row : UserProfile} {p : UserProfile} (hp : findProfile s uid = some p)
    (hrow : row.userId = uid) :
    findProfile (writeProfile s uid row) uid = some row := by
  unfold findProfile at hp ⊢
  show List.find? _ (writeProfileRows s.profiles uid row) = _
  rw [find?_writeProfileRows_self _ _ _ hrow, hp]
  rfl

theorem profiles_pushFlag (s : EngineState) (f : AbuseFlag) :
    (pushFlag s f).profiles = s.profiles := rfl

theorem profiles_pushTxn (s : EngineState) (t : Txn) :
    (pushTxn s t).profiles = s.profiles := rfl

theorem profiles_pushLog (s : EngineState) (l : RewardLog) :
    (pushLog s l).profiles = s.profiles := rfl

theorem profiles_pushRedemption (s : EngineState) (r : Redemption) :
    (pushRedemption s r).profiles = s.profiles := rfl

theorem profiles_pushCommission (s : EngineState) (c : ReferralCommission) :
    (pushCommission s c).profiles = s.profiles := rfl

theorem profiles_pushUserTask (s : EngineState) (t : UserTask) :
    (pushUserTask s t).profiles = s.profiles := rfl

theorem profiles_pushReferralRecord (s : EngineState) (r : ReferralRecord) :
    (pushReferralRecord s r).profiles = s.profiles := rfl

theorem profiles_trackMetric (s : EngineState) (rt : String) (a now : ℕ) :
    (trackMetric s rt a now).profiles = s.profiles := by
  unfold trackMetric
  dsimp only
  split <;> rfl

theorem profiles_checkAbuse (s : EngineState) (uid ip : String) (now : ℕ) :
    ((checkAbuseThrottling s uid ip now).2).profiles = s.profiles := by
  unfold checkAbuseThrottling
  dsimp only
  split
  · rfl
  · by_cases hd : distinctUsersFromIP s ip now > 3 <;> simp [hd, pushFlag]

theorem profiles_processReferralCommission (s : EngineState) (uid : String)
    (amt : ℕ) (src : String) (now : ℕ) :
    (processReferralCommission s uid amt src now).profiles = s.profiles := by
  unfold processReferralCommission
  split
  · rfl
  · split
    · rfl
    · split
      · rfl
      · split
        · rfl
        · dsimp only
          split <;> rfl

theorem findProfile_eq_of_profiles_eq {s t : EngineState} (uid : String)
    (h : t.profiles = s.profiles) : findProfile t uid = findProfile s uid := by
  unfold findProfile
  rw [h]

theorem mono_redeemInvalidCode (s : EngineState) (uid ip : String) (now : ℕ) :
    Mono s (redeemInvalidCode s uid ip now).2 := by
  apply mono_of_profiles_eq
  unfold redeemInvalidCode
  split
  dsimp only
  split <;> rfl

theorem mono_redeemApplyUnit (s1 : EngineState) (uid : String)
    (w : CodeWindow) (profile : UserProfile) (reward : ℕ) (multiplier : ℚ)
    (cleanCode ip dev ua : String) (now : ℕ) (wf : WriteFails)
    (hps : findProfile s1 uid = some profile) :
    Mono s1 (redeemApplyUnit s1 uid w profile reward multiplier cleanCode
      ip dev ua now wf).2 := by
  unfold redeemApplyUnit
  split
  · exact mono_of_profiles_eq rfl
  · split
    · exact mono_of_profiles_eq rfl
    · dsimp only
      split
      · exact mono_of_profiles_eq rfl
      · have hpu := findProfile_userId hps
        apply mono_of_profiles_write uid
            { profile with
              balance := profile.balance + reward,
              totalEarned := profile.totalEarned + reward,
              xp := profile.xp + 10 }
        · rw [profiles_processReferralCommission, profiles_trackMetric,
            profiles_pushLog, profiles_pushTxn]
          rfl
        · exact hpu
        · rw [teOf_eq_of_find hps]
          exact Nat.le_add_right _ _

theorem mono_redeemEligible (s : EngineState) (uid : String) (w : CodeWindow)
    (cleanCode ip dev ua : String) (now : ℕ) (wf : WriteFails) :
    Mono s (redeemEligible s uid w cleanCode ip dev ua now wf).2 := by
  unfold redeemEligible
  split
  next abuse s1 heq =>
    have hs1 : s1.profiles = s.profiles := by
      rw [show s1 = (checkAbuseThrottling s uid ip now).2 from
        (congrArg Prod.snd heq).symm]
      exact profiles_checkAbuse s uid ip now
    split
    · exact mono_of_profiles_eq hs1
    · split
      · exact mono_of_profiles_eq hs1
      next profile heq2 =>
        exact monoTrans (mono_of_profiles_eq hs1)
          (mono_redeemApplyUnit s1 uid w profile _ _ cleanCode ip dev ua now wf heq2)

theorem mono_redeemTaskCode (s : EngineState) (uid : String)
    (code : Option String) (ip dev ua : String) (now : ℕ) (wf : WriteFails) :
    Mono s (redeemTaskCode s uid code ip dev ua now wf).2 := by
  unfold redeemTaskCode
  cases code with
  | none => exact mono_of_profiles_eq rfl
  | some c =>
    dsimp only
    split
    · exact mono_of_profiles_eq rfl
    · split
      · exact mono_redeemInvalidCode s uid ip now
      · split
        · exact mono_of_profiles_eq rfl
        · split
          · exact mono_of_profiles_eq rfl
          · split
            · exact mono_of_profiles_eq rfl
            · exact mono_redeemEligible s uid _ _ ip dev ua now wf

theorem profiles_bumpActiveUsers (s : EngineState) (today : ℕ) :
    (bumpActiveUsers s today).profiles = s.profiles := by
  unfold bumpActiveUsers
  split <;> rfl

theorem mono_completeTaskApply (s : EngineState) (uid taskId : String)
    (task : TaskRow) (profile : UserProfile) (now : ℕ)
    (hps : findProfile s uid = some profile) :
    Mono s (completeTaskApply s uid taskId task profile now).2 := by
  have hpu := findProfile_userId hps
  unfold completeTaskApply
  apply mono_of_profiles_write uid _
  · rw [profiles_processReferralCommission, profiles_trackMetric,
      profiles_pushLog, profiles_pushTxn]
    rfl
  · exact hpu
  · rw [teOf_eq_of_find hps]
    exact Nat.le_add_right _ _

theorem mono_completeTask (s : EngineState) (uid tid : String) (now : ℕ) :
    Mono s (completeTask s uid tid now).2 := by
  unfold completeTask
  dsimp only
  repeat' split
  all_goals try exact mono_of_profiles_eq rfl
  all_goals apply mono_completeTaskApply <;> assumption

theorem mono_dailyCheckin (s : EngineState) (uid : String) (now : ℕ) :
    Mono s (dailyCheckin s uid now).2 := by
  unfold dailyCheckin
  split
  · exact mono_of_profiles_eq rfl
  next profile heq =>
    have hpu := findProfile_userId heq
    dsimp only
    split
    · exact mono_of_profiles_eq rfl
    · apply mono_of_profiles_write uid _
      · rw [profiles_trackMetric, profiles_bumpActiveUsers, profiles_pushTxn]
        rfl
      · exact hpu
      · rw [teOf_eq_of_find heq]
        exact Nat.le_add_right _ _

theorem mono_finishQuizSettle (s : EngineState) (uid sid : String)
    (session : QuizSession) (now : ℕ) :
    Mono s (finishQuizSettle s uid sid session now).2 := by
  unfold finishQuizSettle
  dsimp only
  split
  · apply mono_of_profiles_eq
    rw [profiles_processReferralCommission, profiles_trackMetric,
      profiles_pushLog, profiles_pushTxn]
  next profile heq =>
    have hpu := findProfile_userId heq
    have hte : teOf s uid = profile.totalEarned := teOf_eq_of_find heq
    apply mono_of_profiles_write uid _
    · rw [profiles_processReferralCommission, profiles_trackMetric,
        profiles_pushLog, profiles_pushTxn]
      rfl
    · exact hpu
    · rw [hte]
      exact Nat.le_add_right _ _

theorem mono_finishQuiz (s : EngineState) (uid sid : String) (now : ℕ) :
    Mono s (finishQuiz s uid sid now).2 := by
  unfold finishQuiz
  split
  · exact mono_of_profiles_eq rfl
  · split
    · exact mono_of_profiles_eq rfl
    · split
      · exact mono_of_profiles_eq rfl
      · exact mono_finishQuizSettle s uid sid _ now

theorem mono_gameResult (s : EngineState) (uid gt : String) (bet : ℤ)
    (roll : ℚ) (now : ℕ) : Mono s (gameResult s uid gt bet roll now).2 := by
  unfold gameResult
  split
  · exact mono_of_profiles_eq rfl
  · split
    · exact mono_of_profiles_eq rfl
    · split
      · exact mono_of_profiles_eq rfl
      next profile heq =>
        have hpu := findProfile_userId heq
        split
        · exact mono_of_profiles_eq rfl
        · apply mono_of_profiles_write uid _
          · rw [profiles_trackMetric, profiles_pushTxn]
            rfl
          · exact hpu
          · rw [teOf_eq_of_find heq]

theorem mono_processReferralApply (s : EngineState)
    (newUserId rc : String) (referrer : UserProfile)
    (np : Option UserProfile) (now : ℕ)
    (hnp : np = findProfile s newUserId) :
    Mono s (processReferralApply s newUserId rc referrer np now).2 := by
  unfold processReferralApply
  dsimp only
  split
  · apply mono_of_profiles_eq
    rw [profiles_trackMetric, profiles_pushCommission, profiles_pushTxn]
    rfl
  next _ q =>
    have hfind : findProfile s newUserId = some q := hnp.symm
    have hpu := findProfile_userId hfind
    apply mono_of_profiles_write newUserId _
    · rw [profiles_trackMetric, profiles_pushCommission, profiles_pushTxn]
      rfl
    · exact hpu
    · rw [teOf_eq_of_find hfind]
      exact Nat.le_add_right _ _

theorem mono_processReferral (s : EngineState) (uid rc ip : String)
    (now : ℕ) : Mono s (processReferral s uid rc ip now).2 := by
  unfold processReferral
  dsimp only
  repeat' split
  all_goals try exact mono_of_profiles_eq rfl
  all_goals exact mono_processReferralApply s uid rc _ _ now rfl

theorem profiles_quizAnswerCore (s : EngineState) (uid sid qid : String)
    (v : ℤ) : ((quizAnswerCore s uid sid qid v).2).profiles = s.profiles := by
  unfold quizAnswerCore
  repeat' split
  all_goals rfl

theorem profiles_quizAnswer (s : EngineState) (uid sid qid : String)
    (sel tt : Option ℤ) :
    ((quizAnswer s uid sid qid sel tt).2).profiles = s.profiles := by
  unfold quizAnswer
  repeat' split
  all_goals first
    | rfl
    | exact profiles_quizAnswerCore s uid sid qid _

theorem mono_processReward (s : EngineState) (item : PendingReward)
    (now : ℕ) : Mono s (processReward s item now) := by
  unfold processReward
  split
  · exact monoRefl s
  next profile heq =>
    have hpu := findProfile_userId heq
    apply mono_of_profiles_write item.userId _
    · rw [profiles_pushLog, profiles_pushTxn]
      rfl
    · exact hpu
    · rw [teOf_eq_of_find heq]
      exact Nat.le_add_right _ _

theorem mono_processCommission (s : EngineState) (comm : ReferralCommission)
    (now : ℕ) : Mono s (processCommission s comm now) := by
  unfold processCommission
  split
  · exact monoRefl s
  next profile heq =>
    have hpu := findProfile_userId heq
    apply mono_of_profiles_write comm.referrerId _
    · rw [profiles_trackMetric, profiles_pushTxn]
      rfl
    · exact hpu
    · rw [teOf_eq_of_find heq]
      exact Nat.le_add_right _ _

theorem mono_foldl {α : Type} (f : EngineState → α → EngineState)
    (h : ∀ t a, Mono t (f t a)) :
    ∀ (l : List α) (t : EngineState), Mono t (List.foldl f t l) := by
  intro l
  induction l with
  | nil => intro t; exact monoRefl t
  | cons a l ih => intro t; exact monoTrans (h t a) (ih (f t a))

theorem mono_autoProcessPending (s : EngineState) (uid : String) (now : ℕ) :
    Mono s (autoProcessPending s uid now) := by
  unfold autoProcessPending
  dsimp only
  have h1 : ∀ (t : EngineState) (a : PendingReward),
      Mono t (if (match a.processAt with
                  | some x => decide (x ≤ now)
                  | none => false) = true then processReward t a now else t) := by
    intro t a
    split
    · exact mono_processReward t a now
    · exact monoRefl t
  have h2 : ∀ (t : EngineState) (a : ReferralCommission),
      Mono t (if (match a.eligibleAt with
                  | some x => decide (x ≤ now)
                  | none => false) = true then processCommission t a now else t) := by
    intro t a
    split
    · exact mono_processCommission t a now
    · exact monoRefl t
  exact monoTrans (mono_foldl _ h1 _ _) (mono_foldl _ h2 _ _)

theorem mono_step (t : EngineState) (op : Op) : Mono t (step t op) := by
  cases op with
  | opCompleteTask uid tid now => exact mono_completeTask t uid tid now
  | opRedeemCode uid code ip dev ua now wf =>
    exact mono_redeemTaskCode t uid code ip dev ua now wf
  | opFinishQuiz uid sid now => exact mono_finishQuiz t uid sid now
  | opDailyCheckin uid now => exact mono_dailyCheckin t uid now
  | opGameResult uid gt bet roll now => exact mono_gameResult t uid gt bet roll now
  | opProcessReferral uid rc ip now => exact mono_processReferral t uid rc ip now
  | opQuizAnswer uid sid qid sel tt =>
    exact mono_of_profiles_eq (profiles_quizAnswer t uid sid qid sel tt)
  | opSweep uid now => exact mono_autoProcessPending t uid now

/-- Claim C1: for every actor and every sequence of engine operations
(task completion, code redemption, quiz settlement, daily check-in, game
result, referral processing, pending-reward and commission sweeps, quiz
answers), the totalEarned field read back for the actor is monotonically
non-decreasing: no operation ever writes a totalEarned value smaller than
the one it read. -/
theorem totalEarned_monotone (s : EngineState) (ops : List Op) (u : String) :
    teOf s u ≤ teOf (runOps s ops) u := by
  have h : Mono s (runOps s ops) := by
    unfold runOps
    exact mono_foldl step mono_step ops s
  exact h u

/-- Claim C2 (divergence witness): when the profile-credit write of the
redemption unit fails after the redemption insert and the window-counter
increment succeeded, the caller receives the internal error, but the
already-applied writes persist: the redemption row and the incremented
counter remain while no balance was credited. The stored state is not the
state from before the unit. -/
theorem redeem_partial_failure_persists_writes :
    (redeemTaskCode (redeemState none) "alice" (some "ABCDEF23") "ip1" "dev"
        "ua" 500 ⟨false, false, true⟩).1
      = .err "Failed to process redemption" 500 ∧
    ((redeemTaskCode (redeemState none) "alice" (some "ABCDEF23") "ip1" "dev"
        "ua" 500 ⟨false, false, true⟩).2).redemptions.length = 1 ∧
    winCountOf (redeemTaskCode (redeemState none) "alice" (some "ABCDEF23")
        "ip1" "dev" "ua" 500 ⟨false, false, true⟩).2 "w1" = 1 ∧
    balOf (redeemTaskCode (redeemState none) "alice" (some "ABCDEF23") "ip1"
        "dev" "ua" 500 ⟨false, false, true⟩).2 "alice" = 0 ∧
    (redeemState none).redemptions.length = 0 ∧
    winCountOf (redeemState none) "w1" = 0 :=
  ⟨by with_unfolding_all rfl, by with_unfolding_all rfl,
   by with_unfolding_all rfl, by with_unfolding_all rfl,
   by with_unfolding_all rfl, by with_unfolding_all rfl⟩

/-- Claim C3 (counterexample to the stated error): with a single-use window
(maxRedemptions 1), the first redemption succeeds, and the same actor's
second attempt of the same window fails with the exhausted-capacity error,
not with the already-redeemed conflict error the claim states. -/
theorem redeem_second_attempt_exhausted_not_conflict :
    (redeemTaskCode (redeemState (some 1)) "alice" (some "ABCDEF23") "ip1"
        "dev" "ua" 500 noFails).1 = .ok ⟨100, 1, 100⟩ ∧
    (redeemTaskCode ((redeemTaskCode (redeemState (some 1)) "alice"
        (some "ABCDEF23") "ip1" "dev" "ua" 500 noFails).2)
        "alice" (some "ABCDEF23") "ip1" "dev" "ua" 600 noFails).1
      = .err "Code has reached maximum redemptions" 400 ∧
    RedeemResult.err "Code has reached maximum redemptions" 400 ≠
      RedeemResult.err "You already redeemed this code" 400 :=
  ⟨by with_unfolding_all rfl, by with_unfolding_all rfl, by decide⟩

/-- Claim C3 (amended): once an actor holds a redemption of a window, any
later redemption attempt by that actor whose code resolves to that window
fails, and leaves the actor's totalEarned and balance and the window's
currentRedemptions unchanged; the error is the already-redeemed conflict
exactly when the window is still within its validity period and below its
capacity, and the earlier validation error otherwise. The actor is never
credited twice for one window. -/
theorem redeem_after_redeemed_no_double_credit
    (s : EngineState) (uid c ip dev ua : String) (now : ℕ) (wf : WriteFails)
    (w : CodeWindow) (rd : Redemption)
    (hfmt : ¬ ((strTrim c).length < 6))
    (hw : List.find? (fun x => decide (x.code = strUpper (strTrim c) ∧
      x.isActive = true)) s.windows = some w)
    (hrd : rd ∈ s.redemptions) (hrdu : rd.userId = uid)
    (hrdw : rd.windowId = w.id) :
    (redeemTaskCode s uid (some c) ip dev ua now wf).1.isErr = true ∧
    teOf (redeemTaskCode s uid (some c) ip dev ua now wf).2 uid = teOf s uid ∧
    balOf (redeemTaskCode s uid (some c) ip dev ua now wf).2 uid = balOf s uid ∧
    winCountOf (redeemTaskCode s uid (some c) ip dev ua now wf).2 w.id =
      winCountOf s w.id ∧
    ((w.validFrom ≤ now ∧ now ≤ w.validUntil ∧ capReached w = false) →
      redeemTaskCode s uid (some c) ip dev ua now wf =
        (.err "You already redeemed this code" 400, s)) := by
  have hdup : (List.find? (fun r => decide (r.userId = uid ∧ r.windowId = w.id))
      s.redemptions).isSome = true := by
    rw [List.find?_isSome]
    exact ⟨rd, hrd, by simp [hrdu, hrdw]⟩
  unfold redeemTaskCode
  dsimp only
  split
  next hbad => exact absurd (of_decide_eq_true hbad) hfmt
  next hbad =>
    split
    next heqw =>
      have heqw2 : List.find? (fun x => decide (x.code = strUpper (strTrim c) ∧
          x.isActive = true)) s.windows = none := heqw
      rw [heqw2] at hw
      exact absurd hw (by simp)
    next w2 heqw =>
      have heqw2 : List.find? (fun x => decide (x.code = strUpper (strTrim c) ∧
          x.isActive = true)) s.windows = some w2 := heqw
      rw [heqw2] at hw
      have hw2 : w2 = w := Option.some.inj hw
      subst hw2
      split
      next htime =>
        refine ⟨rfl, rfl, rfl, rfl, fun hc => ?_⟩
        rcases htime with h | h
        · omega
        · omega
      next htime =>
        split
        next hcap =>
          refine ⟨rfl, rfl, rfl, rfl, fun hc => ?_⟩
          rw [hc.2.2] at hcap
          exact absurd hcap (by simp)
        next hcap =>
          exact ⟨rfl, rfl, rfl, rfl, fun _ => rfl⟩

theorem balOf_eq_of_find {s : EngineState} {uid : String} {p : UserProfile}
    (h : findProfile s uid = some p) : balOf s uid = p.balance := by
  unfold balOf balRows
  unfold findProfile at h
  rw [h]

theorem streakOf_eq_of_find {s : EngineState} {uid : String} {p : UserProfile}
    (h : findProfile s uid = some p) : streakOf s uid = p.dailyStreak := by
  unfold streakOf
  rw [h]

theorem findProfile_of_profiles_write {t s : EngineState} {uid : String}
    {row p : UserProfile} (ht : t.profiles = writeProfileRows s.profiles uid row)
    (hp : findProfile s uid = some p) (hrow : row.userId = uid) :
    findProfile t uid = some row := by
  unfold findProfile at hp ⊢
  rw [ht, find?_writeProfileRows_self _ _ _ hrow, hp]
  rfl

/-- Claim C4: for an active quiz session with all questions answered,
finishQuiz pays the session earnings plus a rounded 50 percent bonus when
the score equals the question count, and exactly the session earnings with
zero bonus otherwise. -/
theorem finishQuiz_perfect_bonus
    (s : EngineState) (uid sid : String) (now : ℕ) (sess : QuizSession)
    (hsid : ¬ (sid = ""))
    (hs : findActiveSession s sid uid = some sess)
    (hans : sess.answeredIds.length = sess.questionIds.length) :
    (sess.score = sess.questionIds.length →
      (finishQuiz s uid sid now).1 = .ok ⟨sess.questionIds.length,
        sess.questionIds.length,
        sess.totalEarned + jsRoundN ((sess.totalEarned : ℚ) * (1/2)),
        jsRoundN ((sess.totalEarned : ℚ) * (1/2)),
        sess.questionIds.length * 5 +
          (if jsRoundN ((sess.totalEarned : ℚ) * (1/2)) > 0 then 50 else 0),
        true⟩) ∧
    (¬ (sess.score = sess.questionIds.length) →
      (finishQuiz s uid sid now).1 = .ok ⟨sess.score,
        sess.questionIds.length, sess.totalEarned, 0, sess.score * 5,
        false⟩) := by
  unfold finishQuiz
  rw [if_neg hsid, hs]
  dsimp only
  rw [if_neg (by omega : ¬ (sess.answeredIds.length < sess.questionIds.length))]
  unfold finishQuizSettle
  dsimp only
  constructor
  · intro hperf
    simp [hperf]
  · intro hnp
    simp [hnp]

/-- Witness for claim C4 at the concrete example of the spec: 10 questions,
all answered correctly, 20 BIX each (200 in the session) pay base 200,
bonus 100, total 300. -/
theorem finishQuiz_perfect_bonus_witness :
    (finishQuiz quizFixture "alice" "qs1" 999).1 = .ok ⟨10, 10, 300, 100, 100, true⟩ := by
  have h := (finishQuiz_perfect_bonus quizFixture "alice" "qs1" 999
    ⟨"qs1", "alice", 10, "easy", tenQids, tenQids, 10, 200, .active, 0, none⟩
    (by decide) (by with_unfolding_all rfl) (by decide)).1 (by decide)
  rw [h]
  with_unfolding_all rfl

theorem streakOf_trackMetric (s : EngineState) (rt : String) (a now : ℕ)
    (u : String) : streakOf (trackMetric s rt a now) u = streakOf s u := by
  unfold streakOf
  rw [findProfile_eq_of_profiles_eq u (profiles_trackMetric s rt a now)]

theorem streakOf_bumpActiveUsers (s : EngineState) (d : ℕ) (u : String) :
    streakOf (bumpActiveUsers s d) u = streakOf s u := by
  unfold streakOf
  rw [findProfile_eq_of_profiles_eq u (profiles_bumpActiveUsers s d)]

theorem streakOf_pushTxn (s : EngineState) (t : Txn) (u : String) :
    streakOf (pushTxn s t) u = streakOf s u := by
  unfold streakOf
  rw [findProfile_eq_of_profiles_eq u (profiles_pushTxn s t)]

theorem streakOf_writeProfile_self {s : EngineState} {uid : String}
    {row p : UserProfile} (hp : findProfile s uid = some p)
    (hrow : row.userId = uid) :
    streakOf (writeProfile s uid row) uid = row.dailyStreak := by
  unfold streakOf
  rw [findProfile_writeProfile_self hp hrow]

theorem balOf_trackMetric (s : EngineState) (rt : String) (a now : ℕ)
    (u : String) : balOf (trackMetric s rt a now) u = balOf s u := by
  unfold balOf
  show balRows (trackMetric s rt a now).profiles u = _
  rw [profiles_trackMetric s rt a now]

theorem balOf_bumpActiveUsers (s : EngineState) (d : ℕ) (u : String) :
    balOf (bumpActiveUsers s d) u = balOf s u := by
  unfold balOf
  show balRows (bumpActiveUsers s d).profiles u = _
  rw [profiles_bumpActiveUsers s d]

theorem balOf_pushTxn (s : EngineState) (t : Txn) (u : String) :
    balOf (pushTxn s t) u = balOf s u := by
  unfold balOf
  show balRows (pushTxn s t).profiles u = _
  rw [profiles_pushTxn s t]

theorem balOf_writeProfile_self {s : EngineState} {uid : String}
    {row p : UserProfile} (hp : findProfile s uid = some p)
    (hrow : row.userId = uid) :
    balOf (writeProfile s uid row) uid = row.balance := by
  unfold balOf balRows
  have h := findProfile_writeProfile_self hp hrow
  unfold findProfile at h
  rw [h]

/-- Claim C5: when the recorded last check-in is exactly the previous
calendar day, the streak becomes the old streak plus one and the credited
reward is round(10 * min(1 + (newStreak - 1) * 0.5, 5)); when the last
check-in is neither today nor yesterday (a gap of two or more days, or no
check-in at all), the streak is reset to 1 and the reward is 10. -/
theorem dailyCheckin_streak_rules
    (s : EngineState) (uid : String) (now : ℕ) (p : UserProfile)
    (hp : findProfile s uid = some p)
    (hnt : ¬ (p.lastLogin = some (dayOf now))) :
    (p.lastLogin = some (dayOf now - 1) →
      (dailyCheckin s uid now).1 =
        .ok ⟨jsRoundN (10 * min (1 + (((p.dailyStreak + 1 : ℕ) : ℚ) - 1) * (1/2)) 5),
          p.dailyStreak + 1,
          min (1 + (((p.dailyStreak + 1 : ℕ) : ℚ) - 1) * (1/2)) 5,
          5 + (p.dailyStreak + 1)⟩ ∧
      streakOf (dailyCheckin s uid now).2 uid = p.dailyStreak + 1 ∧
      balOf (dailyCheckin s uid now).2 uid = p.balance +
        jsRoundN (10 * min (1 + (((p.dailyStreak + 1 : ℕ) : ℚ) - 1) * (1/2)) 5)) ∧
    (¬ (p.lastLogin = some (dayOf now - 1)) →
      (dailyCheckin s uid now).1 = .ok ⟨10, 1, 1, 6⟩ ∧
      streakOf (dailyCheckin s uid now).2 uid = 1) := by
  have hpu := findProfile_userId hp
  unfold dailyCheckin
  rw [hp]
  dsimp only
  rw [if_neg hnt]
  constructor
  · intro hy
    simp only [if_pos hy]
    refine ⟨trivial, ?_, ?_⟩
    · rw [streakOf_trackMetric, streakOf_bumpActiveUsers, streakOf_pushTxn,
        streakOf_writeProfile_self hp]
      exact hpu
    · rw [balOf_trackMetric, balOf_bumpActiveUsers, balOf_pushTxn,
        balOf_writeProfile_self hp]
      exact hpu
  · intro hn
    rw [if_neg hn]
    refine ⟨by with_unfolding_all rfl, ?_⟩
    rw [streakOf_trackMetric, streakOf_bumpActiveUsers, streakOf_pushTxn,
      streakOf_writeProfile_self hp]
    exact hpu

/-- Witness for claim C5 at the concrete example of the spec: a 4-day
streak with a check-in yesterday becomes a 5-day streak with multiplier 3.0
and reward round(10 * 3.0) = 30. -/
theorem dailyCheckin_streak_rules_witness :
    (dailyCheckin checkinState "alice" (2 * msPerDay)).1 = .ok ⟨30, 5, 3, 10⟩ ∧
    streakOf (dailyCheckin checkinState "alice" (2 * msPerDay)).2 "alice" = 5 := by
  have h := (dailyCheckin_streak_rules checkinState "alice" (2 * msPerDay)
    ⟨"alice", 0, 0, 0, 4, some 1, none, "", "user"⟩ (by with_unfolding_all rfl)
    (by decide)).1 (by decide)
  refine ⟨?_, h.2.1⟩
  rw [h.1]
  with_unfolding_all rfl

/-- Claim C6 (counterexample to the stated trigger): an actor whose only
unresolved flag is of medium severity, with no low-severity flags at all,
still receives the 0.75 multiplier, because the source tests the length of
the whole unresolved-flag list, not the low-severity count. -/
theorem abuse_penalty_with_medium_flag :
    (checkAbuseThrottling flaggedState "u1" "ip" 0).1 = ⟨true, 3/4, none⟩ ∧
    (List.filter (fun f => decide (f.userId = "u1" ∧ f.resolved = false ∧
      f.severity = Severity.low)) flaggedState.abuseFlags).length = 0 :=
  ⟨by with_unfolding_all rfl, by decide⟩

/-- Claim C6 (amended): for an actor with no unresolved high or critical
flags, when neither the velocity penalty nor the shared-ip penalty fires,
the returned multiplier is 0.75 exactly when the actor has 1 or 2
unresolved flags of any remaining severity (low or medium), and 1
otherwise; the result is always allowed and at least the 0.1 floor, and
the call leaves the state unchanged when no shared-ip cluster is found. -/
theorem abuse_penalty_iff_few_unresolved_flags
    (s : EngineState) (uid ip : String) (now : ℕ)
    (hhigh : (unresolvedFlagsFor s uid).any (fun f => decide (f.severity = .high ∨
      f.severity = .critical)) = false)
    (hvel : recentVelocityCount s uid now < 5)
    (hip : distinctUsersFromIP s ip now ≤ 3) :
    (checkAbuseThrottling s uid ip now).1.allowed = true ∧
    (checkAbuseThrottling s uid ip now).1.multiplier =
      (if 1 ≤ (unresolvedFlagsFor s uid).length ∧
          (unresolvedFlagsFor s uid).length ≤ 2 then 3/4 else 1) ∧
    (1/10 : ℚ) ≤ (checkAbuseThrottling s uid ip now).1.multiplier ∧
    (checkAbuseThrottling s uid ip now).2 = s := by
  have key : checkAbuseThrottling s uid ip now =
      (⟨true, max (if (unresolvedFlagsFor s uid).length > 0 ∧
        (unresolvedFlagsFor s uid).length < 3 then 1 * (3/4) else 1) (1/10),
        none⟩, s) := by
    unfold checkAbuseThrottling
    dsimp only
    simp only [if_neg (show ¬ ((unresolvedFlagsFor s uid).any fun f =>
        decide (f.severity = Severity.high ∨ f.severity = Severity.critical)) = true by
      rw [hhigh]; exact Bool.false_ne_true),
      if_neg (show ¬ recentVelocityCount s uid now ≥ 5 by omega),
      if_neg (show ¬ distinctUsersFromIP s ip now > 3 by omega)]
  have hmul : (checkAbuseThrottling s uid ip now).1.multiplier =
      (if 1 ≤ (unresolvedFlagsFor s uid).length ∧
        (unresolvedFlagsFor s uid).length ≤ 2 then 3/4 else 1) := by
    rw [key]
    by_cases hc : (unresolvedFlagsFor s uid).length > 0 ∧
        (unresolvedFlagsFor s uid).length < 3
    · rw [if_pos hc, if_pos (by omega : 1 ≤ (unresolvedFlagsFor s uid).length ∧
        (unresolvedFlagsFor s uid).length ≤ 2)]
      show max ((1 : ℚ) * (3/4)) (1/10) = 3/4
      rw [show (1 : ℚ) * (3/4) = 3/4 by norm_num]
      exact max_eq_left (by norm_num)
    · rw [if_neg hc, if_neg (by omega : ¬ (1 ≤ (unresolvedFlagsFor s uid).length ∧
        (unresolvedFlagsFor s uid).length ≤ 2))]
      show max (1 : ℚ) (1/10) = 1
      exact max_eq_left (by norm_num)
  refine ⟨by rw [key], hmul, ?_, by rw [key]⟩
  rw [hmul]
  split
  · norm_num
  · norm_num

/-- Witness for the amended claim C6: one unresolved medium flag gives
multiplier 0.75, allowed, floor respected, state unchanged. -/
theorem abuse_penalty_iff_few_unresolved_flags_witness :
    (checkAbuseThrottling flaggedState "u1" "ip" 0).1.allowed = true ∧
    (checkAbuseThrottling flaggedState "u1" "ip" 0).1.multiplier =
      (if 1 ≤ (unresolvedFlagsFor flaggedState "u1").length ∧
          (unresolvedFlagsFor flaggedState "u1").length ≤ 2 then 3/4 else 1) ∧
    (1/10 : ℚ) ≤ (checkAbuseThrottling flaggedState "u1" "ip" 0).1.multiplier ∧
    (checkAbuseThrottling flaggedState "u1" "ip" 0).2 = flaggedState :=
  abuse_penalty_iff_few_unresolved_flags flaggedState "u1" "ip" 0
    (by decide) (by decide) (by decide)

/-- Claim C7 (counterexample to "no flag after the 8th"): in the canonical
run of consecutive invalid-code attempts, the 8th failure produces one
brute_force_codes flag, and the 9th failure produces a second one, because
the source inserts a flag on every failure whose count is at least 8. -/
theorem brute_force_ninth_attempt_flags_again :
    bruteFlagCount (bruteRun 8) = 1 ∧ bruteFlagCount (bruteRun 9) = 2 := by
  decide

/-- Claim C7 (amended): within one failure-count window, the 8th, 9th and
10th invalid-code failures each produce a new medium brute_force_codes
flag (so three in total), after which the lockout gate blocks every later
attempt and no further flag is created: over the whole window the flag
count of a run of n attempts is min(n,10) - 7. -/
theorem brute_force_flag_schedule :
    ∀ n < 60, bruteFlagCount (bruteRun n) = min n 10 - 7 := by
  decide

/-- Witness for the amended claim C7 at n = 12: three flags in total. -/
theorem brute_force_flag_schedule_witness :
    bruteFlagCount (bruteRun 12) = min 12 10 - 7 :=
  brute_force_flag_schedule 12 (by decide)

/-- Claim C8 (counterexample to unconditional creation): bob has a
referrer, two completed tasks (enough qualifying activity) and no
redemption ip overlap, yet a settlement of amount 4 creates no commission
row, because round(4 * 0.10) = 0 and the source drops commissions below 1. -/
theorem commission_skipped_for_small_amounts :
    (processReferralCommission commissionState "bob" 4 "src1" 1000).commissions = [] ∧
    (match findProfile commissionState "bob" with
     | some p => p.referredBy
     | none => none) = some "ref1" ∧
    2 ≤ qualifyingActivity commissionState "bob" ∧
    referralIPOverlap commissionState "ref1" "bob" = false ∧
    jsRoundN ((4 : ℚ) * (1/10)) = 0 :=
  ⟨by with_unfolding_all rfl, by decide, by decide, by decide,
   by with_unfolding_all rfl⟩

/-- Claim C8 (amended): a settlement of amount A by an actor with a
referrer, at least 2 qualifying activities, no recent redemption ip
overlap with the referrer, and round(A * 0.10) at least 1, appends exactly
one pending commission of amount round(A * 0.10) maturing 24 hours later;
when the referrer is absent, the activity is below 2, the ip sets overlap,
or round(A * 0.10) is 0, no commission row is created. -/
theorem commission_created_iff_qualified
    (s : EngineState) (uid rid src : String) (A now : ℕ) (p : UserProfile)
    (hp : findProfile s uid = some p) :
    ((p.referredBy = some rid ∧ 2 ≤ qualifyingActivity s uid ∧
      referralIPOverlap s rid uid = false ∧ 1 ≤ jsRoundN ((A : ℚ) * (1/10))) →
      (processReferralCommission s uid A src now).commissions =
        s.commissions ++ [⟨mkId "rc" now (strTakeRight rid 4), rid, uid, src,
          jsRoundN ((A : ℚ) * (1/10)), .pending, some (now + msPerDay), none⟩]) ∧
    ((p.referredBy = none ∨ qualifyingActivity s uid < 2 ∨
      (∃ r, p.referredBy = some r ∧ referralIPOverlap s r uid = true) ∨
      jsRoundN ((A : ℚ) * (1/10)) = 0) →
      (processReferralCommission s uid A src now).commissions = s.commissions) := by
  unfold processReferralCommission
  rw [hp]
  dsimp only
  constructor
  · rintro ⟨hr, hact, hov, hcomm⟩
    rw [hr]
    dsimp only
    rw [if_neg (by omega : ¬ qualifyingActivity s uid < 2),
      if_neg (by rw [hov]; exact Bool.false_ne_true),
      if_neg (by omega : ¬ jsRoundN ((A : ℚ) * (1/10)) < 1)]
    rfl
  · intro h
    cases hrb : p.referredBy with
    | none => rfl
    | some r =>
      dsimp only
      rcases h with h1 | h2 | ⟨r2, hr2, hov⟩ | h4
      · rw [hrb] at h1
        exact absurd h1 (by simp)
      · rw [if_pos h2]
      · rw [hrb] at hr2
        have hrr : r2 = r := (Option.some.inj hr2).symm
        subst hrr
        by_cases hq : qualifyingActivity s uid < 2
        · rw [if_pos hq]
        · rw [if_neg hq, if_pos hov]
          rfl
      · by_cases hq : qualifyingActivity s uid < 2
        · rw [if_pos hq]
        · rw [if_neg hq]
          by_cases hovB : referralIPOverlap s r uid = true
          · rw [if_pos hovB]
            rfl
          · rw [if_neg hovB, if_pos (by omega : jsRoundN ((A : ℚ) * (1/10)) < 1)]

/-- Witness for the amended claim C8: a 50 BIX settlement by bob creates
exactly one pending 5 BIX commission for ref1 maturing 24 hours later. -/
theorem commission_created_iff_qualified_witness :
    (processReferralCommission commissionState "bob" 50 "src1" 1000).commissions =
      commissionState.commissions ++ [⟨mkId "rc" 1000 (strTakeRight "ref1" 4),
        "ref1", "bob", "src1", jsRoundN (((50 : ℕ) : ℚ) * (1/10)), .pending,
        some (1000 + msPerDay), none⟩] :=
  (commission_created_iff_qualified commissionState "bob" "ref1" "src1" 50 1000
    ⟨"bob", 0, 0, 0, 0, none, some "ref1", "BOBCODE1", "user"⟩
    (by with_unfolding_all rfl)).1
    ⟨rfl, by decide, by decide,
     by rw [show jsRoundN (((50 : ℕ) : ℚ) * (1/10)) = 5 from by with_unfolding_all rfl]; omega⟩

/-- Claim C9: the quiz anti-bot floor applies only when timeTaken is
present: with the other required fields present, a request omitting
timeTaken skips the floor entirely and is processed by the core handler,
while a request with timeTaken below 1 fails with the too-fast error
before any session read or mutation, and one with timeTaken at least 1 is
processed normally. -/
theorem quizAnswer_timeTaken_gate
    (s : EngineState) (uid sid qid : String) (v t : ℤ)
    (hsid : ¬ (sid = "")) (hqid : ¬ (qid = "")) :
    quizAnswer s uid sid qid (some v) none = quizAnswerCore s uid sid qid v ∧
    (t < 1 → quizAnswer s uid sid qid (some v) (some t) =
      (.err "Answer too fast - suspicious activity" 400, s)) ∧
    (1 ≤ t → quizAnswer s uid sid qid (some v) (some t) =
      quizAnswerCore s uid sid qid v) := by
  have hm : ¬ (sid = "" ∨ qid = "" ∨ (some v : Option ℤ) = none) := by
    push_neg
    exact ⟨hsid, hqid, by simp⟩
  refine ⟨?_, ?_, ?_⟩
  · unfold quizAnswer
    rw [if_neg hm]
    rfl
  · intro ht
    unfold quizAnswer
    rw [if_neg hm, if_pos (show (match (some t : Option ℤ) with
      | some x => decide (x < 1)
      | none => false) = true from by simpa using ht)]
  · intro ht
    unfold quizAnswer
    rw [if_neg hm, if_neg (show ¬ ((match (some t : Option ℤ) with
      | some x => decide (x < 1)
      | none => false) = true) from by simp; omega)]
    rfl

/-- Witness for claim C9: omitted timeTaken is processed by the core,
timeTaken 0 is rejected as too fast with the state untouched. -/
theorem quizAnswer_timeTaken_gate_witness :
    quizAnswer emptyState "u" "s1" "q1" (some 0) none =
      quizAnswerCore emptyState "u" "s1" "q1" 0 ∧
    quizAnswer emptyState "u" "s1" "q1" (some 0) (some 0) =
      (.err "Answer too fast - suspicious activity" 400, emptyState) := by
  have h := quizAnswer_timeTaken_gate emptyState "u" "s1" "q1" 0 0
    (by decide) (by decide)
  exact ⟨h.1, h.2.1 (by decide)⟩

/-- Claim C10: in the sequential embedding, gameResult never persists a
negative balance: with the bet in range, a balance below the bet fails
with the insufficient-balance error before any write, and otherwise the
drawn multiplier is one of 0, 2, 5 and the written balance equals
balance + bet * multiplier - bet, which is nonnegative. -/
theorem gameResult_no_negative_balance
    (s : EngineState) (uid gt : String) (bet : ℤ) (roll : ℚ) (now : ℕ)
    (p : UserProfile) (hp : findProfile s uid = some p)
    (hgt : ¬ (gt = "")) (hb1 : (10 : ℤ) ≤ bet) (hb2 : bet ≤ 1000) :
    (p.balance < bet →
      gameResult s uid gt bet roll now = (.err "Insufficient balance" 400, s)) ∧
    (bet ≤ p.balance →
      (gameMultiplier gt roll = 0 ∨ gameMultiplier gt roll = 2 ∨
        gameMultiplier gt roll = 5) ∧
      balOf (gameResult s uid gt bet roll now).2 uid =
        p.balance + bet * (gameMultiplier gt roll : ℤ) - bet ∧
      0 ≤ balOf (gameResult s uid gt bet roll now).2 uid) := by
  have hpu := findProfile_userId hp
  have hmult : gameMultiplier gt roll = 0 ∨ gameMultiplier gt roll = 2 ∨
      gameMultiplier gt roll = 5 := by
    unfold gameMultiplier
    split_ifs <;> simp
  unfold gameResult
  rw [if_neg (show ¬ (gt = "" ∨ bet = 0) from by push_neg; exact ⟨hgt, by omega⟩),
    if_neg (show ¬ (bet < 10 ∨ bet > 1000) from by push_neg; exact ⟨by omega, by omega⟩),
    hp]
  dsimp only
  constructor
  · intro hlt
    rw [if_pos hlt]
  · intro hge
    rw [if_neg (by omega : ¬ p.balance < bet)]
    refine ⟨hmult, ?_, ?_⟩
    · rw [balOf_trackMetric, balOf_pushTxn, balOf_writeProfile_self hp]
      · ring
      · exact hpu
    · rw [balOf_trackMetric, balOf_pushTxn, balOf_writeProfile_self hp]
      · rcases hmult with h | h | h <;> rw [h] <;> push_cast <;> omega
      · exact hpu

/-- Witness for claim C10: alice holds exactly 10 BIX, bets 10 on a
coinflip and the roll loses: the written balance is 0, not negative. -/
theorem gameResult_no_negative_balance_witness :
    (gameMultiplier "coinflip" 0 = 0 ∨ gameMultiplier "coinflip" 0 = 2 ∨
      gameMultiplier "coinflip" 0 = 5) ∧
    balOf (gameResult gameState "alice" "coinflip" 10 0 777).2 "alice" =
      10 + 10 * (gameMultiplier "coinflip" 0 : ℤ) - 10 ∧
    0 ≤ balOf (gameResult gameState "alice" "coinflip" 10 0 777).2 "alice" :=
  (gameResult_no_negative_balance gameState "alice" "coinflip" 10 0 777
    ⟨"alice", 10, 0, 0, 0, none, none, "", "user"⟩
    (by with_unfolding_all rfl) (by decide) (by decide) (by decide)).2
    (by decide)

/-- Witness for the amended claim C3: alice already redeemed window w1;
her next attempt with the same code, inside the validity window of an
uncapped window, fails with the already-redeemed error and changes
nothing. -/
theorem redeem_after_redeemed_no_double_credit_witness :
    (redeemTaskCode dupState "alice" (some "ABCDEF23") "ip1" "dev" "ua"
      600 noFails).1.isErr = true ∧
    teOf (redeemTaskCode dupState "alice" (some "ABCDEF23") "ip1" "dev" "ua"
      600 noFails).2 "alice" = teOf dupState "alice" ∧
    balOf (redeemTaskCode dupState "alice" (some "ABCDEF23") "ip1" "dev" "ua"
      600 noFails).2 "alice" = balOf dupState "alice" ∧
    winCountOf (redeemTaskCode dupState "alice" (some "ABCDEF23") "ip1" "dev"
      "ua" 600 noFails).2 (sampleWindow none).id =
      winCountOf dupState (sampleWindow none).id ∧
    (((sampleWindow none).validFrom ≤ 600 ∧
      600 ≤ (sampleWindow none).validUntil ∧
      capReached (sampleWindow none) = false) →
      redeemTaskCode dupState "alice" (some "ABCDEF23") "ip1" "dev" "ua" 600
        noFails = (.err "You already redeemed this code" 400, dupState)) :=
  redeem_after_redeemed_no_double_credit dupState "alice" "ABCDEF23" "ip1"
    "dev" "ua" 600 noFails (sampleWindow none)
    ⟨"rd1", "alice", "general", "w1", 400, "ip1", "dev", "ua"⟩
    (by decide) (by decide) (by decide) (by decide) (by decide)
